import Mathlib

/-!
Verification development for the dds_glossary package: a shallow embedding of
`model.py`, `database.py` and `controllers.py`, together with theorems about
the parsing, localization, persistence and query behaviour of the code.

Python dictionaries with string keys are embedded as association lists
`List (String × String)`; a dict built by a comprehension keeps the last value
written for a duplicated key, so lookup scans the reversed list.  XML elements
(lxml `ElementBase`) are embedded as records carrying exactly the pieces the
source reads: the `rdf:about` attribute, the text of tagged sub-elements, the
language-tagged label sub-elements, and the `rdf:resource` references of tagged
sub-elements.  Fallible Python code (code that can raise) is embedded in
`Except String`.
-/

namespace DdsGlossary

/-- Lookup in an embedded Python dict: the last binding for a key wins,
matching dict-comprehension construction; `none` models a missing key. -/
def dictGet (d : List (String × String)) (k : String) : Option String :=
  (d.reverse.find? (fun p => p.1 == k)).map Prod.snd

/-- model.py `Base.get_in_language`: the value of `attribute` in language
`lang`, falling back to the English ("en") entry, falling back to `""`.
Source: `attribute.get(lang, attribute.get("en", ""))`. -/
def get_in_language (attr : List (String × String)) (lang : String) : String :=
  match dictGet attr lang with
  | some value => value
  | none =>
    match dictGet attr "en" with
    | some value => value
    | none => ""

/-- An XML element as read by the parsing code:
`about` is the `rdf:about` attribute; `subTexts` maps a sub-element tag to the
text of sub-elements with that tag (in document order); `langLabels` lists the
language-tagged label sub-elements as (tag, language, text); `resourceRefs`
lists sub-elements carrying an `rdf:resource` attribute as (tag, resource),
in document order. -/
structure XmlElement where
  about : String
  subTexts : List (String × String)
  langLabels : List (String × String × String)
  resourceRefs : List (String × String)
deriving DecidableEq, Repr

/-- model.py `Base.get_sub_element_text`: the text of the first sub-element
with the given tag (`element.find`), else `default_value`. -/
def get_sub_element_text (element : XmlElement) (tag : String)
    (default_value : String) : String :=
  match element.subTexts.find? (fun p => p.1 == tag) with
  | some sub_element => sub_element.2
  | none => default_value

/-- The dict comprehension over `element.findall(tag)` building a
language-to-text mapping from label sub-elements with the given tag. -/
def findLangMap (element : XmlElement) (tag : String) : List (String × String) :=
  (element.langLabels.filter (fun l => l.1 == tag)).map (fun l => l.2)

/-- The list comprehension over `element.findall(tag)` collecting the
`rdf:resource` attribute of each sub-element with the given tag. -/
def findResources (element : XmlElement) (tag : String) : List String :=
  (element.resourceRefs.filter (fun p => p.1 == tag)).map (fun p => p.2)

/-- model.py `SemanticRelationType`: the enum of the five semantic relation
types. -/
inductive SemanticRelationType where
  | BROADER
  | NARROWER
  | RELATED
  | BROADER_TRANSITIVE
  | NARROWER_TRANSITIVE
deriving DecidableEq, Repr

/-- The string value of each `SemanticRelationType` enum member. -/
def SemanticRelationType.value : SemanticRelationType → String
  | .BROADER => "broader"
  | .NARROWER => "narrower"
  | .RELATED => "related"
  | .BROADER_TRANSITIVE => "broaderTransitive"
  | .NARROWER_TRANSITIVE => "narrowerTransitive"

/-- Iteration order of `for relation_type in SemanticRelationType`:
enum declaration order. -/
def semanticRelationTypeList : List SemanticRelationType :=
  [.BROADER, .NARROWER, .RELATED, .BROADER_TRANSITIVE, .NARROWER_TRANSITIVE]

/-- model.py `ConceptScheme`.  The Python column `notation` is embedded as
`notationStr` (the source name is a reserved word in Lean). -/
structure ConceptScheme where
  iri : String
  notationStr : String
  scopeNote : String
  prefLabels : List (String × String)
deriving DecidableEq, Repr

/-- model.py `ConceptScheme.from_xml_element`. -/
def ConceptScheme.from_xml_element (element : XmlElement) : ConceptScheme :=
  { iri := element.about
    notationStr := get_sub_element_text element "core:notation" ""
    scopeNote := get_sub_element_text element "core:scopeNote" ""
    prefLabels := findLangMap element "core:prefLabel" }

/-- model.py `ConceptScheme.to_dict`: the returned Python dict, embedded as
the association list in insertion order.  The dict key for the column
`notationStr` is the source key "notation". -/
def ConceptScheme.to_dict (s : ConceptScheme) (lang : String) :
    List (String × String) :=
  [("iri", s.iri),
   ("notation", s.notationStr),
   ("scopeNote", s.scopeNote),
   ("prefLabel", get_in_language s.prefLabels lang)]

/-- model.py `Concept`.  `concept_schemes` holds the schemes the concept
belongs to (the `in_scheme` many-to-many relationship). -/
structure Concept where
  iri : String
  identifier : String
  notationStr : String
  prefLabels : List (String × String)
  altLabels : List (String × String)
  scopeNotes : List (String × String)
  concept_schemes : List ConceptScheme
deriving DecidableEq, Repr

/-- model.py `Concept.from_xml_element`: builds a concept from an XML element
and the already-parsed schemes; `scheme_iris` collects the `rdf:resource`
of each `core:inScheme` sub-element, and `concept_schemes` keeps exactly the
given schemes whose iri occurs among those references. -/
def Concept.from_xml_element (element : XmlElement)
    (concept_schemes : List ConceptScheme) : Concept :=
  let scheme_iris := findResources element "core:inScheme"
  { iri := element.about
    identifier := get_sub_element_text element "x_1.1:identifier" ""
    notationStr := get_sub_element_text element "core:notation" ""
    prefLabels := findLangMap element "core:prefLabel"
    altLabels := findLangMap element "core:altLabel"
    scopeNotes := findLangMap element "core:scopeNote"
    concept_schemes := concept_schemes.filter
      (fun concept_scheme => scheme_iris.contains concept_scheme.iri) }

/-- model.py `Concept.to_dict`. -/
def Concept.to_dict (c : Concept) (lang : String) : List (String × String) :=
  [("iri", c.iri),
   ("identifier", c.identifier),
   ("notation", c.notationStr),
   ("prefLabel", get_in_language c.prefLabels lang),
   ("altLabel", get_in_language c.altLabels lang),
   ("scopeNote", get_in_language c.scopeNotes lang)]

/-- model.py `SemanticRelation`. -/
structure SemanticRelation where
  type : SemanticRelationType
  source_concept_iri : String
  target_concept_iri : String
deriving DecidableEq, Repr

/-- model.py `SemanticRelation.from_xml_element`: for each relation type in
enum order, one relation per `core:<value>` sub-element of the concept
element, with the element `rdf:about` as source and the sub-element
`rdf:resource` as target. -/
def SemanticRelation.from_xml_element (element : XmlElement) :
    List SemanticRelation :=
  semanticRelationTypeList.flatMap (fun relation_type =>
    (element.resourceRefs.filter
      (fun relation => relation.1 == "core:" ++ relation_type.value)).map
      (fun relation =>
        { type := relation_type
          source_concept_iri := element.about
          target_concept_iri := relation.2 }))

/-- model.py `SemanticRelation.to_dict` (no language parameter). -/
def SemanticRelation.to_dict (r : SemanticRelation) : List (String × String) :=
  [("type", r.type.value),
   ("source_concept_iri", r.source_concept_iri),
   ("target_concept_iri", r.target_concept_iri)]

/-- model.py `Base.__eq__` on concept schemes: compares the `to_dict`
serializations at the default language "en". -/
def ConceptScheme.eq (a b : ConceptScheme) : Bool :=
  ConceptScheme.to_dict a "en" == ConceptScheme.to_dict b "en"

/-- model.py `Base.__eq__` on concepts: compares the `to_dict`
serializations at the default language "en". -/
def Concept.eq (a b : Concept) : Bool :=
  Concept.to_dict a "en" == Concept.to_dict b "en"

/-- A parsed XML dataset document: the `core:ConceptScheme` and
`core:Concept` elements found under the root, in document order. -/
structure XmlDataset where
  conceptSchemeElements : List XmlElement
  conceptElements : List XmlElement
deriving DecidableEq, Repr

/-- controllers.py `GlossaryController.parse_dataset`.  The source computes
the schemes, then runs the concepts list comprehension, then the relations
loop.  The concepts comprehension calls `Concept.from_xml_element` with the
element only, omitting the required `concept_schemes` parameter, so Python
raises a `TypeError` as soon as the document has at least one concept
element; with no concept elements the call never happens and the function
returns normally. -/
def parse_dataset (dataset : XmlDataset) :
    Except String (List ConceptScheme × List Concept × List SemanticRelation) :=
  let concept_schemes :=
    dataset.conceptSchemeElements.map ConceptScheme.from_xml_element
  match dataset.conceptElements with
  | [] => .ok (concept_schemes, [], [])
  | _ :: _ =>
    .error "TypeError: from_xml_element missing 1 required positional argument: concept_schemes"

/-- The three relational tables of the persisted schema (concept rows carry
their `in_scheme` memberships). -/
structure DBState where
  concept_schemes : List ConceptScheme
  concepts : List Concept
  semantic_relations : List SemanticRelation
deriving DecidableEq, Repr

/-- The empty database, as recreated by `init_engine(drop_database_flag=True)`. -/
def DBState.empty : DBState :=
  { concept_schemes := [], concepts := [], semantic_relations := [] }

/-- An ORM session: the committed database plus the records added to the
session but not yet committed. -/
structure Session where
  db : DBState
  pending_schemes : List ConceptScheme
  pending_concepts : List Concept
  pending_relations : List SemanticRelation
deriving DecidableEq, Repr

/-- Opening `Session(engine)`: no pending records. -/
def Session.begin (db : DBState) : Session :=
  { db := db, pending_schemes := [], pending_concepts := [], pending_relations := [] }

/-- Session.add_all over concept schemes: stages records without touching the
committed state. -/
def Session.add_all_schemes (s : Session) (items : List ConceptScheme) : Session :=
  { s with pending_schemes := s.pending_schemes ++ items }

/-- Session.add_all over concepts. -/
def Session.add_all_concepts (s : Session) (items : List Concept) : Session :=
  { s with pending_concepts := s.pending_concepts ++ items }

/-- Session.add_all over semantic relations. -/
def Session.add_all_relations (s : Session) (items : List SemanticRelation) : Session :=
  { s with pending_relations := s.pending_relations ++ items }

/-- The database state a commit of all pending records would produce. -/
def Session.flush (s : Session) : DBState :=
  { concept_schemes := s.db.concept_schemes ++ s.pending_schemes
    concepts := s.db.concepts ++ s.pending_concepts
    semantic_relations := s.db.semantic_relations ++ s.pending_relations }

/-- Session.commit: the single transaction boundary.  A successful commit
applies every pending record at once; a failing commit raises and leaves the
committed state untouched (`commit_ok` injects the failure). -/
def Session.commit (commit_ok : Bool) (s : Session) : Except String Session :=
  if commit_ok then
    .ok { db := s.flush, pending_schemes := [], pending_concepts := []
          pending_relations := [] }
  else
    .error "commit failed"

/-- Closing the `with Session(...)` block without a commit discards the
pending records and keeps the committed state. -/
def Session.close (s : Session) : DBState :=
  s.db

/-- Result of running database.py `save_dataset`: whether it raised, and the
database state afterwards. -/
structure SessionRun where
  result : Except String Unit
  db : DBState
deriving Repr

/-- database.py `save_dataset`: one session, three `add_all` calls, one
`commit`.  `commit_ok` injects a commit failure. -/
def save_dataset (commit_ok : Bool) (db : DBState)
    (concept_schemes : List ConceptScheme) (concepts : List Concept)
    (semantic_relations : List SemanticRelation) : SessionRun :=
  let session := Session.begin db
  let session := session.add_all_schemes concept_schemes
  let session := session.add_all_concepts concepts
  let session := session.add_all_relations semantic_relations
  match session.commit commit_ok with
  | .ok committed => { result := .ok (), db := committed.close }
  | .error e => { result := .error e, db := session.close }

/-- The batch fully applied: every record of the batch appended to its table. -/
def DBState.with_batch (db : DBState) (concept_schemes : List ConceptScheme)
    (concepts : List Concept) (semantic_relations : List SemanticRelation) :
    DBState :=
  { concept_schemes := db.concept_schemes ++ concept_schemes
    concepts := db.concepts ++ concepts
    semantic_relations := db.semantic_relations ++ semantic_relations }

/-- database.py `get_concept_schemes`: all rows of the concept_schemes table. -/
def get_concept_schemes (db : DBState) : List ConceptScheme :=
  db.concept_schemes

/-- database.py `get_concepts`.  The source filters with
`Concept.scheme_iri == concept_scheme_iri`, but the `Concept` model declares
no `scheme_iri` attribute (scheme membership lives in the separate
`in_scheme` join table), so the attribute access raises `AttributeError`
before any query runs, for every database state and every argument. -/
def get_concepts (db : DBState) (concept_scheme_iri : String) :
    Except String (List Concept) :=
  .error "AttributeError: type object Concept has no attribute scheme_iri"

/-- database.py `get_concept`: `.where(Concept.iri == concept_iri).one_or_none()`.
`one_or_none` returns the unique matching row, `none` when there is no match,
and raises `MultipleResultsFound` when more than one row matches. -/
def get_concept (db : DBState) (concept_iri : String) :
    Except String (Option Concept) :=
  match db.concepts.filter (fun c => c.iri == concept_iri) with
  | [] => .ok none
  | [c] => .ok (some c)
  | _ :: _ :: _ => .error "MultipleResultsFound"

/-- database.py `get_relations`: rows of semantic_relations whose source or
target iri equals the given concept iri. -/
def get_relations (db : DBState) (concept_iri : String) : List SemanticRelation :=
  db.semantic_relations.filter (fun r =>
    r.source_concept_iri == concept_iri || r.target_concept_iri == concept_iri)

/-- One iteration of the controllers.py `init_datasets` loop body for a single
dataset: load the ontology (the fetch and file save, which may raise, are
abstracted by `load`), parse it with `parse_dataset`, and persist the parsed
records with `save_dataset` (`commit_ok` injects a commit failure per
dataset).  Any error is propagated to the surrounding try/except. -/
def try_dataset (load : String → Except String XmlDataset)
    (commit_ok : String → Bool) (db : DBState)
    (dataset_file dataset_url : String) : Except String DBState :=
  match load dataset_url with
  | .error e => .error e
  | .ok document =>
    match parse_dataset document with
    | .error e => .error e
    | .ok (concept_schemes, concepts, semantic_relations) =>
      let run := save_dataset (commit_ok dataset_file) db concept_schemes
        concepts semantic_relations
      match run.result with
      | .ok _ => .ok run.db
      | .error e => .error e

/-- A saved-datasets entry of `init_datasets`: the dict with keys
"dataset" and "dataset_url". -/
structure SavedDataset where
  dataset : String
  dataset_url : String
deriving DecidableEq, Repr

/-- A failed-datasets entry of `init_datasets`: the dict with keys
"dataset", "dataset_url" and "error". -/
structure FailedDataset where
  dataset : String
  dataset_url : String
  error : String
deriving DecidableEq, Repr

/-- controllers.py `GlossaryController.init_datasets`, the loop over the
configured datasets starting from a given database state: each dataset is
attempted with `try_dataset`; on success a SavedDataset entry is appended, on
any raised error a FailedDataset entry carrying the error message is appended
and the loop continues with the database state unchanged. -/
def init_datasets_from (load : String → Except String XmlDataset)
    (commit_ok : String → Bool) :
    List (String × String) → DBState →
    List SavedDataset × List FailedDataset × DBState
  | [], db => ([], [], db)
  | (dataset_file, dataset_url) :: rest, db =>
    match try_dataset load commit_ok db dataset_file dataset_url with
    | .ok db2 =>
      let r := init_datasets_from load commit_ok rest db2
      ({ dataset := dataset_file, dataset_url := dataset_url } :: r.1, r.2.1, r.2.2)
    | .error e =>
      let r := init_datasets_from load commit_ok rest db
      (r.1,
       { dataset := dataset_file, dataset_url := dataset_url, error := e } :: r.2.1,
       r.2.2)

/-- controllers.py `GlossaryController.init_datasets`: recreates the database
(`init_engine(drop_database_flag=True)`) and ingests every configured dataset
best-effort, returning the saved and failed lists. -/
def init_datasets (load : String → Except String XmlDataset)
    (commit_ok : String → Bool) (datasets : List (String × String)) :
    List SavedDataset × List FailedDataset × DBState :=
  init_datasets_from load commit_ok datasets DBState.empty

/-! Concrete sample inputs, mirroring the shape of the repository test data:
one concept scheme element and one concept element that references the scheme
through `core:inScheme` and carries one `core:broader` and one `core:related`
sub-element. -/

/-- A sample `core:ConceptScheme` element. -/
def exSchemeElement : XmlElement :=
  { about := "https://example.org/scheme1"
    subTexts := [("core:notation", "S1"), ("core:scopeNote", "Scheme one note")]
    langLabels := [("core:prefLabel", "en", "Scheme One"),
                   ("core:prefLabel", "fr", "Premier Ensemble")]
    resourceRefs := [] }

/-- A sample `core:Concept` element: member of scheme1, with one broader and
one related sub-element. -/
def exConceptElement : XmlElement :=
  { about := "https://example.org/concept1"
    subTexts := [("x_1.1:identifier", "c1"), ("core:notation", "C1")]
    langLabels := [("core:prefLabel", "en", "Concept One")]
    resourceRefs := [("core:inScheme", "https://example.org/scheme1"),
                     ("core:broader", "https://example.org/concept2"),
                     ("core:related", "https://example.org/concept3")] }

/-- A sample dataset document holding the two sample elements. -/
def exDataset : XmlDataset :=
  { conceptSchemeElements := [exSchemeElement]
    conceptElements := [exConceptElement] }

/-- A sample dataset holding only the scheme element (no concepts). -/
def exSchemeOnlyDataset : XmlDataset :=
  { conceptSchemeElements := [exSchemeElement], conceptElements := [] }

/-- The sample scheme record, as parsed from its element. -/
def exScheme : ConceptScheme :=
  ConceptScheme.from_xml_element exSchemeElement

/-- The sample concept record, as the model layer parses it when it is given
the already-parsed schemes. -/
def exConcept : Concept :=
  Concept.from_xml_element exConceptElement [exScheme]

/-- A sample stored database state holding the sample records. -/
def exDB : DBState :=
  { concept_schemes := [exScheme]
    concepts := [exConcept]
    semantic_relations := SemanticRelation.from_xml_element exConceptElement }

/-- Supporting lemma: the model-layer concept parser resolves scheme
membership as specified: a scheme ends up in the membership set of the parsed
concept exactly when it is among the given schemes and its iri occurs among
the `core:inScheme` references of the element. -/
theorem concept_from_xml_element_membership (element : XmlElement)
    (schemes : List ConceptScheme) (s : ConceptScheme) :
    s ∈ (Concept.from_xml_element element schemes).concept_schemes ↔
      s ∈ schemes ∧ s.iri ∈ findResources element "core:inScheme" := by
  simp [Concept.from_xml_element, List.mem_filter]

/-- C1: the claim says every concept record produced by
`GlossaryController.parse_dataset` carries exactly the parsed schemes whose
iris occur among its `core:inScheme` references.  The source instead calls
`Concept.from_xml_element` without the required `concept_schemes` argument,
so on this dataset (one scheme element and one concept element referencing
that scheme) `parse_dataset` raises a `TypeError` and produces no concept
records at all. -/
theorem parse_dataset_raises_on_concept_elements :
    parse_dataset exDataset
      = .error "TypeError: from_xml_element missing 1 required positional argument: concept_schemes" :=
  rfl

/-- C2: the claim says `get_concepts` returns exactly the stored concepts
belonging to the scheme with the given iri.  The source filters on
`Concept.scheme_iri`, an attribute the `Concept` model does not define, so
the call raises `AttributeError` for every database state — here even though
the stored sample concept does belong to the scheme with the queried iri. -/
theorem get_concepts_raises_attribute_error :
    get_concepts exDB "https://example.org/scheme1"
      = .error "AttributeError: type object Concept has no attribute scheme_iri"
    ∧ exConcept ∈ exDB.concepts
    ∧ exScheme ∈ exConcept.concept_schemes
    ∧ exScheme.iri = "https://example.org/scheme1" :=
  ⟨rfl, by decide, by decide, rfl⟩

/-- C3: `get_in_language` returns the entry for the requested language when
present, otherwise the English entry when present, otherwise the empty
string; being a total function it never fails. -/
theorem get_in_language_spec (attr : List (String × String)) (lang : String) :
    (∀ value, dictGet attr lang = some value → get_in_language attr lang = value)
    ∧ (dictGet attr lang = none →
        ∀ value, dictGet attr "en" = some value → get_in_language attr lang = value)
    ∧ (dictGet attr lang = none → dictGet attr "en" = none →
        get_in_language attr lang = "") := by
  refine ⟨?_, ?_, ?_⟩
  · intro value h
    simp [get_in_language, h]
  · intro h value h2
    simp [get_in_language, h, h2]
  · intro h h2
    simp [get_in_language, h, h2]

/-- Witness for C3 at a concrete label mapping: the language "de" is absent,
so the lookup falls back to the English entry. -/
theorem get_in_language_spec_witness :
    get_in_language [("fr", "bonjour"), ("en", "hello")] "de" = "hello" :=
  (get_in_language_spec [("fr", "bonjour"), ("en", "hello")] "de").2.1 rfl "hello" rfl

/-- Supporting lemma: boolean equality on relation types is propositional
equality decided. -/
theorem semanticRelationType_beq (a b : SemanticRelationType) :
    (a == b) = decide (a = b) :=
  rfl

/-- C5: `SemanticRelation.from_xml_element` emits, for each of the five
relation types, one relation per sub-element carrying the matching
`core:` tag, with the element iri as source and the referenced resource as
target; on the sample element with one broader and one related sub-element
it emits exactly those two relation records. -/
theorem semantic_relation_from_xml_element_spec (element : XmlElement) :
    (∀ t : SemanticRelationType,
      (SemanticRelation.from_xml_element element).filter (fun r => r.type == t)
        = (element.resourceRefs.filter
            (fun p => p.1 == "core:" ++ t.value)).map
            (fun p =>
              { type := t
                source_concept_iri := element.about
                target_concept_iri := p.2 }))
    ∧ SemanticRelation.from_xml_element exConceptElement
        = [{ type := .BROADER
             source_concept_iri := "https://example.org/concept1"
             target_concept_iri := "https://example.org/concept2" },
           { type := .RELATED
             source_concept_iri := "https://example.org/concept1"
             target_concept_iri := "https://example.org/concept3" }] := by
  constructor
  · intro t
    cases t <;>
      simp +decide [SemanticRelation.from_xml_element, semanticRelationTypeList,
        SemanticRelationType.value, List.filter_append, List.filter_map,
        Function.comp, semanticRelationType_beq]
  · decide

/-- C6: `get_relations` returns exactly the stored semantic relations in
which the given iri appears as the source or as the target endpoint. -/
theorem get_relations_spec (db : DBState) (concept_iri : String)
    (r : SemanticRelation) :
    r ∈ get_relations db concept_iri ↔
      r ∈ db.semantic_relations ∧
        (r.source_concept_iri = concept_iri ∨ r.target_concept_iri = concept_iri) := by
  simp [get_relations, List.mem_filter]

/-- Witness for C6 on the sample database: the broader relation is returned
when querying its target iri. -/
theorem get_relations_spec_witness :
    { type := SemanticRelationType.BROADER
      source_concept_iri := "https://example.org/concept1"
      target_concept_iri := "https://example.org/concept2" } ∈
      get_relations exDB "https://example.org/concept2" :=
  (get_relations_spec exDB "https://example.org/concept2"
    { type := SemanticRelationType.BROADER
      source_concept_iri := "https://example.org/concept1"
      target_concept_iri := "https://example.org/concept2" }).mpr
    ⟨by decide, Or.inr rfl⟩

/-- Supporting lemma: when the stored concept iris are pairwise distinct, the
rows matching one iri are empty or exactly the single row `find?` returns. -/
theorem filter_iri_of_nodup (concept_iri : String) :
    ∀ (l : List Concept), (l.map Concept.iri).Nodup →
      l.filter (fun c => c.iri == concept_iri)
        = match l.find? (fun c => c.iri == concept_iri) with
          | some c => [c]
          | none => [] := by
  intro l
  induction l with
  | nil => intro _; rfl
  | cons c cs ih =>
    intro h
    by_cases hc : c.iri = concept_iri
    · have hnotin : c.iri ∉ cs.map Concept.iri := (List.nodup_cons.mp h).1
      have hnil : cs.filter (fun c2 => c2.iri == concept_iri) = [] := by
        refine List.filter_eq_nil_iff.mpr ?_
        intro c2 hc2 hbeq
        apply hnotin
        have hiri : c2.iri = concept_iri := by simpa using hbeq
        rw [hc, ← hiri]
        exact List.mem_map_of_mem Concept.iri hc2
      simp [List.filter_cons, List.find?_cons, hc, hnil]
    · have hrec := ih (List.nodup_cons.mp h).2
      simp [List.filter_cons, List.find?_cons, hc, hrec]

/-- C7: when stored concept iris are unique keys, `get_concept` never raises:
it returns the unique stored concept with the requested iri, and none when no
stored concept has that iri. -/
theorem get_concept_spec (db : DBState) (concept_iri : String)
    (h : (db.concepts.map Concept.iri).Nodup) :
    get_concept db concept_iri
      = .ok (db.concepts.find? (fun c => c.iri == concept_iri))
    ∧ (∀ c, db.concepts.find? (fun c2 => c2.iri == concept_iri) = some c →
        c ∈ db.concepts ∧ c.iri = concept_iri)
    ∧ (db.concepts.find? (fun c => c.iri == concept_iri) = none ↔
        ∀ c ∈ db.concepts, c.iri ≠ concept_iri) := by
  refine ⟨?_, ?_, ?_⟩
  · have hf := filter_iri_of_nodup concept_iri db.concepts h
    unfold get_concept
    rw [hf]
    cases db.concepts.find? (fun c => c.iri == concept_iri) <;> rfl
  · intro c hfind
    refine ⟨List.mem_of_find?_eq_some hfind, ?_⟩
    have hp := List.find?_some hfind
    simpa using hp
  · rw [List.find?_eq_none]
    simp

/-- Witness for C7 on the sample database: a stored iri is found, a missing
iri yields none, and neither call raises. -/
theorem get_concept_spec_witness :
    get_concept exDB "https://example.org/concept1" = .ok (some exConcept)
    ∧ get_concept exDB "https://example.org/nothing" = .ok none :=
  ⟨Eq.trans (get_concept_spec exDB "https://example.org/concept1" (by decide)).1 rfl,
   Eq.trans (get_concept_spec exDB "https://example.org/nothing" (by decide)).1 rfl⟩

/-- C8: `save_dataset` is atomic over the batch: a successful run commits
every concept scheme, concept and semantic relation of the batch together,
and a failing run leaves the stored state exactly unchanged. -/
theorem save_dataset_atomic (commit_ok : Bool) (db : DBState)
    (concept_schemes : List ConceptScheme) (concepts : List Concept)
    (semantic_relations : List SemanticRelation) :
    ((save_dataset commit_ok db concept_schemes concepts semantic_relations).result
        = .ok ()
      ∧ (save_dataset commit_ok db concept_schemes concepts semantic_relations).db
        = db.with_batch concept_schemes concepts semantic_relations)
    ∨ ((save_dataset commit_ok db concept_schemes concepts semantic_relations).result
        = .error "commit failed"
      ∧ (save_dataset commit_ok db concept_schemes concepts semantic_relations).db
        = db) := by
  cases commit_ok
  · exact Or.inr ⟨rfl, rfl⟩
  · exact Or.inl ⟨rfl, rfl⟩

/-- C9: for every record and language, `to_dict` exposes exactly the
specified string-valued fields, each equal to the corresponding record field
localized to that language (plain string fields are returned verbatim, the
label and note mappings through `get_in_language`). -/
theorem to_dict_fields (s : ConceptScheme) (c : Concept) (r : SemanticRelation)
    (lang : String) :
    (ConceptScheme.to_dict s lang).map Prod.fst
        = ["iri", "notation", "scopeNote", "prefLabel"]
    ∧ dictGet (ConceptScheme.to_dict s lang) "iri" = some s.iri
    ∧ dictGet (ConceptScheme.to_dict s lang) "notation" = some s.notationStr
    ∧ dictGet (ConceptScheme.to_dict s lang) "scopeNote" = some s.scopeNote
    ∧ dictGet (ConceptScheme.to_dict s lang) "prefLabel"
        = some (get_in_language s.prefLabels lang)
    ∧ (Concept.to_dict c lang).map Prod.fst
        = ["iri", "identifier", "notation", "prefLabel", "altLabel", "scopeNote"]
    ∧ dictGet (Concept.to_dict c lang) "iri" = some c.iri
    ∧ dictGet (Concept.to_dict c lang) "identifier" = some c.identifier
    ∧ dictGet (Concept.to_dict c lang) "notation" = some c.notationStr
    ∧ dictGet (Concept.to_dict c lang) "prefLabel"
        = some (get_in_language c.prefLabels lang)
    ∧ dictGet (Concept.to_dict c lang) "altLabel"
        = some (get_in_language c.altLabels lang)
    ∧ dictGet (Concept.to_dict c lang) "scopeNote"
        = some (get_in_language c.scopeNotes lang)
    ∧ (SemanticRelation.to_dict r).map Prod.fst
        = ["type", "source_concept_iri", "target_concept_iri"]
    ∧ dictGet (SemanticRelation.to_dict r) "type" = some r.type.value
    ∧ dictGet (SemanticRelation.to_dict r) "source_concept_iri"
        = some r.source_concept_iri
    ∧ dictGet (SemanticRelation.to_dict r) "target_concept_iri"
        = some r.target_concept_iri :=
  ⟨rfl, rfl, rfl, rfl, rfl, rfl, rfl, rfl, rfl, rfl, rfl, rfl, rfl, rfl, rfl, rfl⟩

/-- C10: record equality compares the default-language ("en") dictionary
serializations, so two records (schemes or concepts) that agree on their
identity fields and English-localized labels compare equal even when their
labels differ in some other language. -/
theorem record_eq_via_default_to_dict (s1 s2 : ConceptScheme) (c1 c2 : Concept) :
    (ConceptScheme.eq s1 s2 = true ↔
      ConceptScheme.to_dict s1 "en" = ConceptScheme.to_dict s2 "en")
    ∧ (Concept.eq c1 c2 = true ↔
      Concept.to_dict c1 "en" = Concept.to_dict c2 "en")
    ∧ (s1.iri = s2.iri → s1.notationStr = s2.notationStr →
        s1.scopeNote = s2.scopeNote →
        get_in_language s1.prefLabels "en" = get_in_language s2.prefLabels "en" →
        ConceptScheme.eq s1 s2 = true)
    ∧ (c1.iri = c2.iri → c1.identifier = c2.identifier →
        c1.notationStr = c2.notationStr →
        get_in_language c1.prefLabels "en" = get_in_language c2.prefLabels "en" →
        get_in_language c1.altLabels "en" = get_in_language c2.altLabels "en" →
        get_in_language c1.scopeNotes "en" = get_in_language c2.scopeNotes "en" →
        Concept.eq c1 c2 = true) := by
  refine ⟨?_, ?_, ?_, ?_⟩
  · simp [ConceptScheme.eq]
  · simp [Concept.eq]
  · intro h1 h2 h3 h4
    simp [ConceptScheme.eq, ConceptScheme.to_dict, h1, h2, h3, h4]
  · intro h1 h2 h3 h4 h5 h6
    simp [Concept.eq, Concept.to_dict, h1, h2, h3, h4, h5, h6]

/-- A copy of the sample scheme with an extra French label: the English
serialization is unchanged. -/
def exSchemeFr : ConceptScheme :=
  { exScheme with
    prefLabels := [("en", "Scheme One"), ("fr", "Ensemble Un")] }

/-- Witness for C10: the sample scheme and its French-labelled copy have
different label mappings yet compare equal. -/
theorem record_eq_via_default_to_dict_witness :
    ConceptScheme.eq exScheme exSchemeFr = true
    ∧ exScheme.prefLabels ≠ exSchemeFr.prefLabels :=
  ⟨(record_eq_via_default_to_dict exScheme exSchemeFr exConcept exConcept).2.2.1
      rfl rfl rfl rfl,
   by decide⟩

/-- Supporting lemma: the saved and failed entries of the ingestion loop,
projected to (name, url), are together a permutation of the configured
dataset collection. -/
theorem init_datasets_perm (load : String → Except String XmlDataset)
    (commit_ok : String → Bool) (datasets : List (String × String)) :
    ∀ db : DBState,
      (((init_datasets_from load commit_ok datasets db).1.map
          (fun s => (s.dataset, s.dataset_url)))
        ++ ((init_datasets_from load commit_ok datasets db).2.1.map
          (fun f => (f.dataset, f.dataset_url)))).Perm datasets := by
  induction datasets with
  | nil =>
    intro db
    simp [init_datasets_from]
  | cons head rest ih =>
    intro db
    obtain ⟨dataset_file, dataset_url⟩ := head
    cases htry : try_dataset load commit_ok db dataset_file dataset_url with
    | ok db2 =>
      have hperm := (ih db2).cons (dataset_file, dataset_url)
      simp only [init_datasets_from, htry]
      simpa using hperm
    | error e =>
      have hperm := (ih db).cons (dataset_file, dataset_url)
      simp only [init_datasets_from, htry]
      refine List.Perm.trans ?_ hperm
      simp only [List.map_cons]
      exact List.perm_middle

/-- Supporting lemma: every failed entry of the ingestion loop records the
error message the attempt for that dataset raised (at the database state the
loop held when it was attempted). -/
theorem init_datasets_failed_cause (load : String → Except String XmlDataset)
    (commit_ok : String → Bool) (datasets : List (String × String)) :
    ∀ (db : DBState) (f : FailedDataset),
      f ∈ (init_datasets_from load commit_ok datasets db).2.1 →
      ∃ db2, try_dataset load commit_ok db2 f.dataset f.dataset_url
        = .error f.error := by
  induction datasets with
  | nil =>
    intro db f hf
    simp [init_datasets_from] at hf
  | cons head rest ih =>
    intro db f hf
    obtain ⟨dataset_file, dataset_url⟩ := head
    cases htry : try_dataset load commit_ok db dataset_file dataset_url with
    | ok db2 =>
      simp only [init_datasets_from, htry] at hf
      exact ih db2 f hf
    | error e =>
      simp only [init_datasets_from, htry, List.mem_cons] at hf
      rcases hf with rfl | hf
      · exact ⟨db, htry⟩
      · exact ih db f hf

/-- C4: `init_datasets` is best-effort across the dataset collection: every
configured dataset lands in exactly one of the saved and failed lists (their
projections together are a permutation of the collection); a dataset whose
fetch, parse or save raises is recorded in the failed list together with the
raised error message instead of the error propagating; and a failing head
dataset leaves the processing of the remaining datasets, and the database
state they build, exactly as it would have been without it. -/
theorem init_datasets_best_effort (load : String → Except String XmlDataset)
    (commit_ok : String → Bool) (datasets : List (String × String))
    (db : DBState) :
    (((init_datasets_from load commit_ok datasets db).1.map
        (fun s => (s.dataset, s.dataset_url)))
      ++ ((init_datasets_from load commit_ok datasets db).2.1.map
        (fun f => (f.dataset, f.dataset_url)))).Perm datasets
    ∧ (∀ f ∈ (init_datasets_from load commit_ok datasets db).2.1,
        ∃ db2, try_dataset load commit_ok db2 f.dataset f.dataset_url
          = .error f.error)
    ∧ (∀ dataset_file dataset_url rest e,
        datasets = (dataset_file, dataset_url) :: rest →
        try_dataset load commit_ok db dataset_file dataset_url = .error e →
        init_datasets_from load commit_ok datasets db
          = ((init_datasets_from load commit_ok rest db).1,
             { dataset := dataset_file, dataset_url := dataset_url, error := e }
               :: (init_datasets_from load commit_ok rest db).2.1,
             (init_datasets_from load commit_ok rest db).2.2)) := by
  refine ⟨init_datasets_perm load commit_ok datasets db,
    fun f hf => init_datasets_failed_cause load commit_ok datasets db f hf, ?_⟩
  intro dataset_file dataset_url rest e hds htry
  subst hds
  simp [init_datasets_from, htry]

/-- A concrete loader for two datasets: the first document contains a concept
element (so its parse raises), the second only a scheme element. -/
def exLoad : String → Except String XmlDataset :=
  fun dataset_url =>
    if dataset_url == "https://example.org/ds1.rdf" then .ok exDataset
    else if dataset_url == "https://example.org/ds2.rdf" then .ok exSchemeOnlyDataset
    else .error "HTTPError: not found"

/-- A concrete two-dataset collection. -/
def exDatasets : List (String × String) :=
  [("ds1.rdf", "https://example.org/ds1.rdf"),
   ("ds2.rdf", "https://example.org/ds2.rdf")]

/-- Witness for C4: ingesting the two concrete datasets, where the first
fails to parse, yields one saved entry and one failed entry carrying the
error message, with the scheme of the successful dataset fully persisted;
and the head failure leaves the rest processed exactly as on its own. -/
theorem init_datasets_best_effort_witness :
    init_datasets_from exLoad (fun _ => true) exDatasets DBState.empty
      = ([{ dataset := "ds2.rdf", dataset_url := "https://example.org/ds2.rdf" }],
         [{ dataset := "ds1.rdf", dataset_url := "https://example.org/ds1.rdf",
            error := "TypeError: from_xml_element missing 1 required positional argument: concept_schemes" }],
         { concept_schemes := [exScheme], concepts := [], semantic_relations := [] })
    ∧ init_datasets_from exLoad (fun _ => true) exDatasets DBState.empty
      = ((init_datasets_from exLoad (fun _ => true)
            [("ds2.rdf", "https://example.org/ds2.rdf")] DBState.empty).1,
         { dataset := "ds1.rdf", dataset_url := "https://example.org/ds1.rdf",
           error := "TypeError: from_xml_element missing 1 required positional argument: concept_schemes" }
           :: (init_datasets_from exLoad (fun _ => true)
            [("ds2.rdf", "https://example.org/ds2.rdf")] DBState.empty).2.1,
         (init_datasets_from exLoad (fun _ => true)
            [("ds2.rdf", "https://example.org/ds2.rdf")] DBState.empty).2.2) :=
  ⟨rfl,
   (init_datasets_best_effort exLoad (fun _ => true) exDatasets DBState.empty).2.2
     "ds1.rdf" "https://example.org/ds1.rdf"
     [("ds2.rdf", "https://example.org/ds2.rdf")]
     "TypeError: from_xml_element missing 1 required positional argument: concept_schemes"
     rfl rfl⟩

end DdsGlossary
